import Mathlib

/-!
Verification of the boundary-condition subsystem of a finite-difference PDE
solver (the `Boundaries` collection of `pde/grids/boundaries/axes.py`).

The central class `Boundaries` (a list subclass bundling one boundary-axis
pair per grid axis) is embedded below: its constructor (`Boundaries.init`),
the normalisation entry point `from_data`, `copy`, the `periodic` property,
`check_value_rank`, `set_ghost_cells` and `make_ghost_cell_setter`.

Collaborator code that lives outside the file under verification (the grid
base class and the per-axis pair class) is modelled from the specification;
such definitions carry a doc comment starting with "Modelled from the spec".
Python object identity is modelled by giving every heap object a unique
numeric identity tag `ref`; two values of the model are "the same object"
exactly when they are equal as structures (in particular their tags agree).
-/

namespace PDE

/-- Modelled from the spec: the grid base class (`pde/grids/base.py`, not under
`src/`) is an external collaborator exposing `num_axes` and an ordered list
`periodic` of booleans (one per axis).  Per the spec the grid reference is
identity-comparable, so Python equality on grids is modelled as structural
equality of this record including its identity tag `ref`. -/
structure Grid where
  ref : Nat
  num_axes : Nat
  periodic : List Bool
  deriving DecidableEq, Repr

/-- Per-axis boundary data, one of the literal input shapes accepted for a
single axis: a string keyword, a mapping of type and value (the value's
tensorial rank is the part the model keeps), or a low/high pair. -/
inductive AxData where
  | str (s : String)
  | dict (kind : String) (valueRank : Nat)
  | pair (lo hi : AxData)
  deriving DecidableEq, Repr

/-- Modelled from the spec: the boundary-axis pair class
(`pde/grids/boundaries/axis.py`, not under `src/`).  It couples the low and
high condition of one axis; the model keeps its grid reference, axis index,
periodic flag, the originating data and the tensorial rank of its value data,
plus the identity tag `ref`. -/
structure BoundaryPair where
  ref : Nat
  grid : Grid
  axis : Nat
  periodic : Bool
  data : AxData
  value_rank : Nat
  deriving DecidableEq, Repr

/-- The error taxonomy of the subsystem: `BCDataError` for unsupported shapes
and count mismatches, `PeriodicityError` for periodicity contradictions,
`RankError` for value-rank mismatches, and `AssertionError` for a failed
Python `assert`. -/
inductive BCError where
  | BCDataError (msg : String)
  | PeriodicityError (msg : String)
  | RankError
  | AssertionError
  deriving DecidableEq, Repr

/-- The indexing `grid.periodic[axis]` of the source, total on the model's
list (the constructor only indexes within bounds, where the two agree). -/
def getPeriodic (grid : Grid) (axis : Nat) : Bool :=
  grid.periodic.getD axis false

/-- Modelled from the spec: `get_boundary_axis` (in `axis.py`, not under
`src/`) builds the boundary pair for one axis from its data and rank; it
fails with `PeriodicityError` when the data requests a periodic condition on
a non-periodic axis or vice versa (spec: `kind == periodic` iff the owning
axis is periodic).  The built pair stores value data of the requested rank
and gets the axis index as its identity tag. -/
def get_boundary_axis (grid : Grid) (axis : Nat) (data : AxData) (rank : Nat) :
    Except BCError BoundaryPair :=
  let wantPeriodic : Bool := decide (data = AxData.str "periodic")
  if wantPeriodic ≠ getPeriodic grid axis then
    Except.error (BCError.PeriodicityError
      "boundary periodicity is not compatible with the grid axis")
  else
    Except.ok
      { ref := axis, grid := grid, axis := axis, periodic := wantPeriodic,
        data := data, value_rank := rank }

/-- Modelled from the spec: `BoundaryPair.check_value_rank` fails with a rank
error when the stored value data's tensorial rank differs from the field
rank. -/
def BoundaryPair.check_value_rank (p : BoundaryPair) (rank : Nat) :
    Except BCError Unit :=
  if p.value_rank = rank then Except.ok () else Except.error BCError.RankError

/-- Modelled from the spec: `BoundaryPair.copy` deep-copies the value data and
shares the grid reference; in the model the copy is a new object (fresh
identity tag) with identical fields. -/
def BoundaryPair.copy (p : BoundaryPair) (fresh : Nat) : BoundaryPair :=
  { p with ref := fresh }

/-- Python structural equality of boundary pairs (spec: equality is
structural): all fields but the identity tag. -/
def BoundaryPair.beq (p q : BoundaryPair) : Bool :=
  decide (p.grid = q.grid ∧ p.axis = q.axis ∧ p.periodic = q.periodic ∧
    p.data = q.data ∧ p.value_rank = q.value_rank)

/-- The `Boundaries` collection: the grid attribute together with the list of
per-axis pairs (the Python class is a list subclass carrying `grid`). -/
structure Boundaries where
  grid : Grid
  pairs : List BoundaryPair
  deriving DecidableEq, Repr

instance {ε α : Type} [DecidableEq ε] [DecidableEq α] : DecidableEq (Except ε α) :=
  fun x y =>
  match x, y with
  | Except.error a, Except.error b =>
    if h : a = b then isTrue (by rw [h])
    else isFalse (by intro hc; injection hc; exact h (by assumption))
  | Except.ok a, Except.ok b =>
    if h : a = b then isTrue (by rw [h])
    else isFalse (by intro hc; injection hc; exact h (by assumption))
  | Except.error _, Except.ok _ => isFalse (by intro hc; exact Except.noConfusion hc)
  | Except.ok _, Except.error _ => isFalse (by intro hc; exact Except.noConfusion hc)

/-- The consistency loop of `Boundaries.__init__` (axes.py lines 44-56): for
each pair in order, check its grid against the collection's grid, its axis
index against its position, and its periodic flag against the grid's; the
first failing check decides the error.  The numeric argument is the position
of the first remaining pair. -/
def checkConsistency (grid : Grid) : Nat → List BoundaryPair → Option BCError
  | _, [] => none
  | axis, b :: rest =>
    if b.grid ≠ grid then
      some (BCError.BCDataError "Boundaries are not defined on the same grid")
    else if b.axis ≠ axis then
      some (BCError.BCDataError
        "Boundaries need to be ordered like the respective axes")
    else if b.periodic ≠ getPeriodic grid axis then
      some (BCError.PeriodicityError
        ("Periodicity specified in the boundaries conditions is not compatible with the grid for axis "
          ++ toString axis))
    else
      checkConsistency grid (axis + 1) rest

/-- `Boundaries.__init__` (axes.py lines 31-59).  It takes no grid argument:
the collection's grid is the grid of the first supplied pair.  An empty list
and a count mismatch raise `BCDataError`; the per-pair loop is
`checkConsistency`.  On success the collection holds exactly the supplied
list. -/
def Boundaries.init (boundaries : List BoundaryPair) : Except BCError Boundaries :=
  match boundaries with
  | [] => Except.error (BCError.BCDataError "List of boundaries must not be empty")
  | b0 :: _ =>
    let grid := b0.grid
    if boundaries.length ≠ grid.num_axes then
      Except.error (BCError.BCDataError
        ("Need boundary conditions for " ++ toString grid.num_axes ++ " axes"))
    else
      match checkConsistency grid 0 boundaries with
      | some e => Except.error e
      | none => Except.ok ⟨grid, boundaries⟩

/-- `Boundaries.check_value_rank` delegates to every pair in order, failing at
the first mismatch (axes.py lines 164-175). -/
def check_value_rank_list (rank : Nat) : List BoundaryPair → Except BCError Unit
  | [] => Except.ok ()
  | p :: rest =>
    match p.check_value_rank rank with
    | Except.error e => Except.error e
    | Except.ok _ => check_value_rank_list rank rest

def Boundaries.check_value_rank (b : Boundaries) (rank : Nat) :
    Except BCError Unit :=
  check_value_rank_list rank b.pairs

/-- The input shapes accepted by `Boundaries.from_data`: an existing
`Boundaries` collection, a single string, a single mapping, or a sequence of
per-axis data. -/
inductive BCSpec where
  | bcs (b : Boundaries)
  | str (s : String)
  | dict (kind : String) (valueRank : Nat)
  | seq (l : List AxData)
  deriving DecidableEq, Repr

/-- The sentinel-keyword expansion of `from_data` (axes.py lines 92-124):
"natural"/"auto_periodic_neumann", "auto_periodic_dirichlet" and
"auto_periodic_curvature" expand to one keyword per axis, "periodic" on
periodic axes and the associated non-periodic kind otherwise.  The source
branches on `rank == 0` but appends the same keyword in both branches, which
the translation keeps. -/
def expandSentinels (grid : Grid) (spec : BCSpec) (rank : Nat) : BCSpec :=
  match spec with
  | BCSpec.str s =>
    if s = "natural" ∨ s = "auto_periodic_neumann" then
      BCSpec.seq (grid.periodic.map fun periodic =>
        if periodic then AxData.str "periodic"
        else if rank = 0 then AxData.str "neumann" else AxData.str "neumann")
    else if s = "auto_periodic_dirichlet" then
      BCSpec.seq (grid.periodic.map fun periodic =>
        if periodic then AxData.str "periodic"
        else if rank = 0 then AxData.str "dirichlet" else AxData.str "dirichlet")
    else if s = "auto_periodic_curvature" then
      BCSpec.seq (grid.periodic.map fun periodic =>
        if periodic then AxData.str "periodic"
        else if rank = 0 then AxData.str "curvature" else AxData.str "curvature")
    else spec
  | _ => spec

/-- Builds the per-axis pair for every axis position in turn, starting at the
given index, propagating the first error (the list comprehensions of
`from_data`). -/
def mkEachFrom (grid : Grid) (rank : Nat) : Nat → List AxData → Except BCError (List BoundaryPair)
  | _, [] => Except.ok []
  | i, d :: rest =>
    match get_boundary_axis grid i d rank with
    | Except.error e => Except.error e
    | Except.ok p =>
      match mkEachFrom grid rank (i + 1) rest with
      | Except.error e => Except.error e
      | Except.ok ps => Except.ok (p :: ps)

/-- One specification applied to every axis (axes.py lines 128-133). -/
def mkAll (grid : Grid) (data : AxData) (rank : Nat) :
    Except BCError (List BoundaryPair) :=
  mkEachFrom grid rank 0 (List.replicate grid.num_axes data)

/-- The 1D low/high shorthand: the whole 2-element sequence is handed to the
per-axis constructor of axis 0 (axes.py line 145). -/
def mkShort (grid : Grid) (a b : AxData) (rank : Nat) :
    Except BCError (List BoundaryPair) :=
  match get_boundary_axis grid 0 (AxData.pair a b) rank with
  | Except.error e => Except.error e
  | Except.ok p => Except.ok [p]

def Boundaries.get_help : String :=
  "Boundary conditions for each axis are set using a list: [bc_x, bc_y, bc_z]. If the associated axis is periodic, the boundary condition needs to be set to periodic."

/-- The dispatch of `from_data` on the (already sentinel-expanded) data
(axes.py lines 126-146): a single string or mapping is applied to every axis;
a sequence whose length equals the number of axes is read axis-wise; else a
2-element sequence on a one-axis grid is the low/high shorthand; everything
else yields `none` ("none of the logic worked"). -/
def dispatch (grid : Grid) (spec : BCSpec) (rank : Nat) :
    Option (Except BCError (List BoundaryPair)) :=
  match spec with
  | BCSpec.str s => some (mkAll grid (AxData.str s) rank)
  | BCSpec.dict k v => some (mkAll grid (AxData.dict k v) rank)
  | BCSpec.seq l =>
    if l.length = grid.num_axes then
      some (mkEachFrom grid rank 0 l)
    else if grid.num_axes = 1 ∧ l.length = 2 then
      match l with
      | a :: b :: _ => some (mkShort grid a b rank)
      | _ => none
    else none
  | BCSpec.bcs _ => none

/-- `Boundaries.from_data` (axes.py lines 65-153): the fast path returns an
existing collection as-is after asserting its grid equals the target grid and
re-checking the value rank; otherwise sentinels are expanded, the dispatch
builds the per-axis pairs (or `BCDataError` with the help string when no rule
matches), and the constructor runs on the result. -/
def Boundaries.from_data (grid : Grid) (boundaries : BCSpec) (rank : Nat) :
    Except BCError Boundaries :=
  match boundaries with
  | BCSpec.bcs b =>
    if b.grid = grid then
      match b.check_value_rank rank with
      | Except.error e => Except.error e
      | Except.ok _ => Except.ok b
    else
      Except.error BCError.AssertionError
  | _ =>
    let spec := expandSentinels grid boundaries rank
    match dispatch grid spec rank with
    | none =>
      Except.error (BCError.BCDataError
        ("Unsupported boundary format. " ++ Boundaries.get_help))
    | some (Except.error e) => Except.error e
    | some (Except.ok pairs) => Boundaries.init pairs

/-- Python structural equality of collections (`Boundaries.__eq__`, axes.py
lines 155-158): elementwise pair equality plus equal grids. -/
def Boundaries.beq (x y : Boundaries) : Bool :=
  decide (x.pairs.length = y.pairs.length) &&
    (x.pairs.zip y.pairs).all (fun pq => BoundaryPair.beq pq.1 pq.2) &&
    decide (x.grid = y.grid)

/-- Copies every pair, handing consecutive fresh identity tags to the copies
(the model of the fresh allocations in `[bc.copy() for bc in self]`). -/
def copyPairs : Nat → List BoundaryPair → List BoundaryPair
  | _, [] => []
  | fresh, p :: rest => p.copy fresh :: copyPairs (fresh + 1) rest

/-- `Boundaries.copy` (axes.py lines 186-188): deep-copies every pair and runs
the constructor on the result. -/
def Boundaries.copy (b : Boundaries) (fresh : Nat) : Except BCError Boundaries :=
  Boundaries.init (copyPairs fresh b.pairs)

/-- The value `Boundaries.copy` is expected to produce on a valid collection:
same grid, pair list copied with fresh tags. -/
def Boundaries.copyVal (b : Boundaries) (fresh : Nat) : Boundaries :=
  ⟨b.grid, copyPairs fresh b.pairs⟩

/-- The `periodic` property (axes.py lines 190-194): always read directly from
the grid. -/
def Boundaries.periodic (b : Boundaries) : List Bool :=
  b.grid.periodic

/-- The full-array data a ghost-cell setter acts on, kept abstract as a list
of integers: the claims about setter composition hold for every per-axis
setter, so only the sequencing matters. -/
def FullData : Type := List Int

instance : DecidableEq FullData :=
  inferInstanceAs (DecidableEq (List Int))

/-- A ghost-cell setter, modelled as a state transformer on the full data
(the Python routines mutate the array in place). -/
def GhostCellSetter : Type := FullData → FullData

/-- Modelled from the spec: a pair's `make_ghost_cell_setter` returns a
routine with the same effect as its `set_ghost_cells`, so one hook assigns
each pair its setter (the pair-level code is in `axis.py`, not under
`src/`). -/
def PairSetter : Type := BoundaryPair → GhostCellSetter

/-- `Boundaries.set_ghost_cells` (axes.py lines 206-217): invokes every pair's
setter directly, in list (= axis) order. -/
def Boundaries.set_ghost_cells (b : Boundaries) (ps : PairSetter)
    (data_full : FullData) : FullData :=
  b.pairs.foldl (fun acc p => ps p acc) data_full

/-- The recursive `chain` helper of `make_ghost_cell_setter` (axes.py lines
235-258): wraps the accumulated inner setter so that it runs before the next
axis's setter, recursing over the remaining setters.  The Python code indexes
`fs[0]` and so is only ever called on a non-empty list; the empty case (an
IndexError in Python) is `none`. -/
def chain (fs : List GhostCellSetter) (inner : Option GhostCellSetter) :
    Option GhostCellSetter :=
  match fs with
  | [] => none
  | first :: rest =>
    let wrap : GhostCellSetter :=
      match inner with
      | none => fun data_full => first data_full
      | some innerF => fun data_full => first (innerF data_full)
    match rest with
    | [] => some wrap
    | _ :: _ => chain rest (some wrap)

/-- `Boundaries.make_ghost_cell_setter` (axes.py lines 219-260): collects the
per-axis setters and chains them into one composed routine. -/
def Boundaries.make_ghost_cell_setter (b : Boundaries) (ps : PairSetter) :
    Option GhostCellSetter :=
  chain (b.pairs.map ps) none

/-- Position-indexed axis-order check: pair at position `i` (counting from the
given start) has axis index exactly `i`. -/
def axesOrderedFrom : Nat → List BoundaryPair → Bool
  | _, [] => true
  | a, p :: rest => (p.axis == a) && axesOrderedFrom (a + 1) rest

def axesOrdered (bs : List BoundaryPair) : Bool :=
  axesOrderedFrom 0 bs

/-- Every pair's grid equals the given grid. -/
def allSameGrid (grid : Grid) (bs : List BoundaryPair) : Bool :=
  bs.all fun p => decide (p.grid = grid)

/-- Position-indexed periodicity agreement with the grid. -/
def periodicAgreesFrom (grid : Grid) : Nat → List BoundaryPair → Bool
  | _, [] => true
  | a, p :: rest =>
    (p.periodic == getPeriodic grid a) && periodicAgreesFrom grid (a + 1) rest

def periodicAgrees (grid : Grid) (bs : List BoundaryPair) : Bool :=
  periodicAgreesFrom grid 0 bs

/-- Recognises a periodicity error among construction outcomes. -/
def isPeriodicityError : Except BCError Boundaries → Bool
  | Except.error (BCError.PeriodicityError _) => true
  | _ => false

/-- Recognises a periodicity error in the consistency loop's outcome. -/
def isPerErrOpt : Option BCError → Bool
  | some (BCError.PeriodicityError _) => true
  | _ => false

/-- Applies an optional inner setter (the accumulator of `chain`): absent
means the data is passed through unchanged. -/
def applyInner : Option GhostCellSetter → FullData → FullData
  | none, d => d
  | some g, d => g d

/-- The tail of `from_data` after the dispatch: no match is a data error with
the help string, a pair-construction error propagates, and a built list runs
the constructor. -/
def finishDispatch : Option (Except BCError (List BoundaryPair)) →
    Except BCError Boundaries
  | none =>
    Except.error (BCError.BCDataError
      ("Unsupported boundary format. " ++ Boundaries.get_help))
  | some (Except.error e) => Except.error e
  | some (Except.ok pairs) => Boundaries.init pairs

/-- A concrete two-axis grid, non-periodic in x and periodic in y, used as a
witness input. -/
def gW : Grid := ⟨1, 2, [false, true]⟩

/-- A concrete boundary pair for axis 0 of `gW`. -/
def p0W : BoundaryPair := ⟨10, gW, 0, false, AxData.str "neumann", 0⟩

/-- A concrete boundary pair for axis 1 of `gW`. -/
def p1W : BoundaryPair := ⟨11, gW, 1, true, AxData.str "periodic", 0⟩

/-- A concrete pair for axis 1 of `gW` whose periodic flag contradicts the
grid (the axis is periodic, the pair is not). -/
def p1Wbad : BoundaryPair := ⟨12, gW, 1, false, AxData.str "neumann", 0⟩

/-- The valid collection over `gW`. -/
def bW : Boundaries := ⟨gW, [p0W, p1W]⟩

/-- A concrete per-pair setter that records the pair's axis index in front of
the data, so that invocation order is observable. -/
def psW : PairSetter := fun p => fun d => (p.axis : Int) :: d

/-- Concrete initial full data for the setter witnesses. -/
def dW : FullData := []

/-- A concrete one-axis periodic grid, distinct from `gW`. -/
def g1W : Grid := ⟨7, 1, [true]⟩

/-- A concrete boundary pair for the single axis of `g1W`. -/
def q0W : BoundaryPair := ⟨20, g1W, 0, true, AxData.str "periodic", 0⟩

/-- Step equation of the consistency loop on a non-empty list. -/
lemma checkConsistency_cons (grid : Grid) (a : Nat) (p : BoundaryPair)
    (rest : List BoundaryPair) :
    checkConsistency grid a (p :: rest) =
      if p.grid ≠ grid then
        some (BCError.BCDataError "Boundaries are not defined on the same grid")
      else if p.axis ≠ a then
        some (BCError.BCDataError
          "Boundaries need to be ordered like the respective axes")
      else if p.periodic ≠ getPeriodic grid a then
        some (BCError.PeriodicityError
          ("Periodicity specified in the boundaries conditions is not compatible with the grid for axis "
            ++ toString a))
      else
        checkConsistency grid (a + 1) rest := rfl

/-- Step equation of the constructor on a non-empty list. -/
lemma init_cons (b0 : BoundaryPair) (rest : List BoundaryPair) :
    Boundaries.init (b0 :: rest) =
      if (b0 :: rest).length ≠ b0.grid.num_axes then
        Except.error (BCError.BCDataError
          ("Need boundary conditions for " ++ toString b0.grid.num_axes ++ " axes"))
      else
        match checkConsistency b0.grid 0 (b0 :: rest) with
        | some e => Except.error e
        | none => Except.ok ⟨b0.grid, b0 :: rest⟩ := rfl

/-- The consistency loop succeeds exactly when every pair's grid matches, the
axis indices follow the positions, and every periodic flag agrees with the
grid. -/
lemma checkConsistency_eq_none_iff (grid : Grid) (a : Nat) (bs : List BoundaryPair) :
    checkConsistency grid a bs = none ↔
      allSameGrid grid bs = true ∧ axesOrderedFrom a bs = true ∧
        periodicAgreesFrom grid a bs = true := by
  induction bs generalizing a with
  | nil =>
    simp [checkConsistency, allSameGrid, axesOrderedFrom, periodicAgreesFrom]
  | cons p rest ih =>
    rw [checkConsistency_cons]
    by_cases hg : p.grid = grid
    · rw [if_neg (not_not_intro hg)]
      by_cases ha : p.axis = a
      · rw [if_neg (not_not_intro ha)]
        by_cases hper : p.periodic = getPeriodic grid a
        · rw [if_neg (not_not_intro hper), ih]
          have h1 : decide (p.grid = grid) = true := by
            rw [decide_eq_true_eq]; exact hg
          have h2 : (p.axis == a) = true := by rw [beq_iff_eq]; exact ha
          have h3 : (p.periodic == getPeriodic grid a) = true := by
            rw [beq_iff_eq]; exact hper
          simp only [allSameGrid, List.all_cons, axesOrderedFrom,
            periodicAgreesFrom, h1, h2, h3, Bool.true_and]
        · have h3 : (p.periodic == getPeriodic grid a) = false := by
            simp [hper]
          rw [if_pos hper]
          simp only [allSameGrid, List.all_cons, axesOrderedFrom,
            periodicAgreesFrom, h3, Bool.false_and, Bool.and_false]
          simp
      · have h2 : (p.axis == a) = false := by simp [ha]
        rw [if_pos ha]
        simp only [axesOrderedFrom, h2, Bool.false_and]
        simp
    · have h1 : decide (p.grid = grid) = false := by simp [hg]
      rw [if_pos hg]
      simp only [allSameGrid, List.all_cons, h1, Bool.false_and]
      simp

/-- When every pair's grid matches and the axis order is right but some
periodic flag disagrees with the grid, the consistency loop reports a
periodicity error (never a generic data error). -/
lemma checkConsistency_periodicity (grid : Grid) (a : Nat) (bs : List BoundaryPair)
    (hg : allSameGrid grid bs = true) (ha : axesOrderedFrom a bs = true)
    (hp : periodicAgreesFrom grid a bs = false) :
    isPerErrOpt (checkConsistency grid a bs) = true := by
  induction bs generalizing a with
  | nil => simp [periodicAgreesFrom] at hp
  | cons p rest ih =>
    have hg1 : p.grid = grid := by
      have h := hg
      simp only [allSameGrid, List.all_cons, Bool.and_eq_true,
        decide_eq_true_eq] at h
      exact h.1
    have hg2 : allSameGrid grid rest = true := by
      have h := hg
      simp only [allSameGrid, List.all_cons, Bool.and_eq_true] at h
      exact h.2
    have ha1 : p.axis = a := by
      have h := ha
      simp only [axesOrderedFrom, Bool.and_eq_true, beq_iff_eq] at h
      exact h.1
    have ha2 : axesOrderedFrom (a + 1) rest = true := by
      have h := ha
      simp only [axesOrderedFrom, Bool.and_eq_true] at h
      exact h.2
    rw [checkConsistency_cons, if_neg (not_not_intro hg1),
      if_neg (not_not_intro ha1)]
    by_cases hper : p.periodic = getPeriodic grid a
    · rw [if_neg (not_not_intro hper)]
      apply ih (a + 1) hg2 ha2
      have hh : (p.periodic == getPeriodic grid a) = true := by
        rw [beq_iff_eq]; exact hper
      have h := hp
      simp only [periodicAgreesFrom, hh, Bool.true_and] at h
      exact h
    · rw [if_pos hper]
      rfl

/-- Inversion for a successful construction: the collection holds exactly the
supplied list, its grid is the first pair's grid, the count matches the
grid's axis count, and all pointwise consistency facts hold. -/
lemma init_ok_elim {bs : List BoundaryPair} {b : Boundaries}
    (h : Boundaries.init bs = Except.ok b) :
    bs ≠ [] ∧ b.pairs = bs ∧ bs.length = b.grid.num_axes ∧
      allSameGrid b.grid bs = true ∧ axesOrdered bs = true ∧
      periodicAgrees b.grid bs = true := by
  match bs with
  | [] => simp [Boundaries.init] at h
  | b0 :: rest =>
    rw [init_cons] at h
    by_cases hlen : (b0 :: rest).length = b0.grid.num_axes
    · rw [if_neg (not_not_intro hlen)] at h
      match hc : checkConsistency b0.grid 0 (b0 :: rest) with
      | some e => rw [hc] at h; exact absurd h (by simp)
      | none =>
        rw [hc] at h
        have hb : b = ⟨b0.grid, b0 :: rest⟩ := by
          injection h with h2
          exact h2.symm
        subst hb
        have hfacts := (checkConsistency_eq_none_iff b0.grid 0 (b0 :: rest)).mp hc
        exact ⟨by simp, rfl, hlen, hfacts.1, hfacts.2.1, hfacts.2.2⟩
    · rw [if_pos hlen] at h
      exact absurd h (by simp)

/-- Introduction for a successful construction: any non-empty list of pairs
sharing one common grid, in axis order and with matching periodicity, with the
right count, constructs successfully into a collection carrying that grid. -/
lemma init_ok_intro (grid : Grid) (bs : List BoundaryPair)
    (hne : bs ≠ []) (hlen : bs.length = grid.num_axes)
    (hg : allSameGrid grid bs = true) (ha : axesOrdered bs = true)
    (hp : periodicAgrees grid bs = true) :
    Boundaries.init bs = Except.ok ⟨grid, bs⟩ := by
  match bs with
  | [] => exact absurd rfl hne
  | b0 :: rest =>
    have hg0 : b0.grid = grid := by
      have h := hg
      simp only [allSameGrid, List.all_cons, Bool.and_eq_true,
        decide_eq_true_eq] at h
      exact h.1
    have hlen2 : (b0 :: rest).length = b0.grid.num_axes := by
      rw [hg0]; exact hlen
    have hcons : checkConsistency b0.grid 0 (b0 :: rest) = none := by
      rw [hg0]
      exact (checkConsistency_eq_none_iff grid 0 (b0 :: rest)).mpr ⟨hg, ha, hp⟩
    rw [init_cons, if_neg (not_not_intro hlen2), hcons, hg0]

/-- The composed routine built by `chain` on a non-empty list of setters is
total and applies the inner setter first, then the listed setters from left
to right (a left fold). -/
lemma chain_apply (f : GhostCellSetter) (rest : List GhostCellSetter)
    (inner : Option GhostCellSetter) (d : FullData) :
    (chain (f :: rest) inner).isSome = true ∧
      ((chain (f :: rest) inner).getD id) d =
        List.foldl (fun acc g => g acc) (applyInner inner d) (f :: rest) := by
  induction rest generalizing f inner d with
  | nil =>
    cases inner <;> simp [chain, applyInner]
  | cons g rs ih =>
    cases inner with
    | none =>
      have hstep : chain (f :: g :: rs) none =
          chain (g :: rs) (some (fun x => f x)) := rfl
      rw [hstep]
      have h := ih g (some (fun x => f x)) d
      simpa [applyInner] using h
    | some innerF =>
      have hstep : chain (f :: g :: rs) (some innerF) =
          chain (g :: rs) (some (fun x => f (innerF x))) := rfl
      rw [hstep]
      have h := ih g (some (fun x => f (innerF x))) d
      simpa [applyInner] using h

/-- Copying pairs does not change the outcome of the consistency loop: the
copy keeps every field the loop inspects. -/
lemma copyPairs_checkConsistency (grid : Grid) (a fresh : Nat)
    (bs : List BoundaryPair) :
    checkConsistency grid a (copyPairs fresh bs) = checkConsistency grid a bs := by
  induction bs generalizing a fresh with
  | nil => rfl
  | cons p rest ih =>
    show checkConsistency grid a (p.copy fresh :: copyPairs (fresh + 1) rest) = _
    rw [checkConsistency_cons, checkConsistency_cons]
    simp only [BoundaryPair.copy]
    rw [ih]

/-- Copying pairs preserves the list length. -/
lemma copyPairs_length (fresh : Nat) (bs : List BoundaryPair) :
    (copyPairs fresh bs).length = bs.length := by
  induction bs generalizing fresh with
  | nil => rfl
  | cons p rest ih => simp [copyPairs, ih]

/-- Every copied pair is structurally equal to its original (only the
identity tag changes). -/
lemma copyPairs_beq (fresh : Nat) (bs : List BoundaryPair) :
    ((copyPairs fresh bs).zip bs).all (fun pq => BoundaryPair.beq pq.1 pq.2) = true := by
  induction bs generalizing fresh with
  | nil => rfl
  | cons p rest ih =>
    show ((p.copy fresh :: copyPairs (fresh + 1) rest).zip (p :: rest)).all
        (fun pq => BoundaryPair.beq pq.1 pq.2) = true
    have h1 : BoundaryPair.beq (p.copy fresh) p = true := by
      simp [BoundaryPair.beq, BoundaryPair.copy]
    simp only [List.zip_cons_cons, List.all_cons, h1, Bool.true_and]
    exact ih (fresh + 1)

/-- C1: whenever the `Boundaries` constructor succeeds, the collection holds
exactly the supplied pairs (no silent repair), their count equals the grid's
axis count, and the pair at position `i` has axis index `i`; contrapositively
any input with a different count or out-of-order axes fails. -/
theorem c1_construction_shape (bs : List BoundaryPair) (b : Boundaries)
    (h : Boundaries.init bs = Except.ok b) :
    b.pairs = bs ∧ bs.length = b.grid.num_axes ∧ axesOrdered bs = true := by
  obtain ⟨-, h1, h2, -, h3, -⟩ := init_ok_elim h
  exact ⟨h1, h2, h3⟩

theorem c1_construction_shape_witness :
    bW.pairs = [p0W, p1W] ∧ [p0W, p1W].length = bW.grid.num_axes ∧
      axesOrdered [p0W, p1W] = true :=
  c1_construction_shape [p0W, p1W] bW (by decide)

/-- C2: a list of per-axis pairs whose grids match and whose axes are in
order, with the right count, but in which some pair's periodic flag disagrees
with the grid's periodicity for its axis, makes the constructor raise
`PeriodicityError` specifically (not the generic `BCDataError`). -/
theorem c2_periodicity_error (grid : Grid) (bs : List BoundaryPair)
    (hne : bs ≠ []) (hlen : bs.length = grid.num_axes)
    (hg : allSameGrid grid bs = true) (ha : axesOrdered bs = true)
    (hp : periodicAgrees grid bs = false) :
    isPeriodicityError (Boundaries.init bs) = true := by
  match bs with
  | [] => exact absurd rfl hne
  | b0 :: rest =>
    have hg0 : b0.grid = grid := by
      have h := hg
      simp only [allSameGrid, List.all_cons, Bool.and_eq_true,
        decide_eq_true_eq] at h
      exact h.1
    have hlen2 : (b0 :: rest).length = b0.grid.num_axes := by
      rw [hg0]; exact hlen
    have hpe := checkConsistency_periodicity grid 0 (b0 :: rest) hg ha hp
    rw [init_cons, if_neg (not_not_intro hlen2), hg0]
    cases hcc : checkConsistency grid 0 (b0 :: rest) with
    | none => rw [hcc] at hpe; exact absurd hpe (by simp [isPerErrOpt])
    | some e =>
      rw [hcc] at hpe
      cases e with
      | PeriodicityError m => rfl
      | BCDataError m => exact absurd hpe (by simp [isPerErrOpt])
      | RankError => exact absurd hpe (by simp [isPerErrOpt])
      | AssertionError => exact absurd hpe (by simp [isPerErrOpt])

theorem c2_periodicity_error_witness :
    isPeriodicityError (Boundaries.init [p0W, p1Wbad]) = true :=
  c2_periodicity_error gW [p0W, p1Wbad] (by decide) (by decide) (by decide)
    (by decide) (by decide)

/-- C9: passing an empty list directly to the constructor raises
`BCDataError` with a message indicating that an empty list is invalid; in
the `Except` model no partially-built collection is observable. -/
theorem c9_empty_list_rejected :
    Boundaries.init ([] : List BoundaryPair) =
      Except.error (BCError.BCDataError "List of boundaries must not be empty") :=
  rfl

/-- C10: the constructor takes no grid argument — the collection's grid is
the first pair's grid — so any non-empty, axis-ordered list of pairs that
all share one common grid with matching periodicity and the right count
constructs successfully, regardless of which grid that is. -/
theorem c10_no_grid_argument (grid : Grid) (bs : List BoundaryPair)
    (hne : bs ≠ []) (hlen : bs.length = grid.num_axes)
    (hg : allSameGrid grid bs = true) (ha : axesOrdered bs = true)
    (hp : periodicAgrees grid bs = true) :
    Boundaries.init bs = Except.ok ⟨grid, bs⟩ :=
  init_ok_intro grid bs hne hlen hg ha hp

theorem c10_no_grid_argument_witness :
    Boundaries.init [q0W] = Except.ok ⟨g1W, [q0W]⟩ :=
  c10_no_grid_argument g1W [q0W] (by decide) (by decide) (by decide) (by decide)
    (by decide)

/-- The two keyword branches of the sentinel expansion append the same kind
whatever the rank is, so the expansion is the rank-free per-axis map. -/
lemma sentinel_map_eq (rank : Nat) (kind : String) :
    (fun periodic : Bool => if periodic then AxData.str "periodic"
      else if rank = 0 then AxData.str kind else AxData.str kind) =
    (fun p : Bool => AxData.str (if p then "periodic" else kind)) := by
  funext p
  cases p <;> simp

/-- C4: `from_data` on a sequence-like specification uses the per-axis
interpretation whenever the length equals the grid's axis count; the
2-element low/high shorthand applies only when the grid has one axis and the
length is exactly 2 (so on a 2-axis grid a 2-element sequence is always read
axis-wise); anything else is an unsupported-format `BCDataError`. -/
theorem c4_sequence_priority (grid : Grid) (l : List AxData) (rank : Nat) :
    Boundaries.from_data grid (BCSpec.seq l) rank =
      if l.length = grid.num_axes then
        finishDispatch (some (mkEachFrom grid rank 0 l))
      else if grid.num_axes = 1 ∧ l.length = 2 then
        finishDispatch (some (mkShort grid (l.headD (AxData.str ""))
          (l.tail.headD (AxData.str "")) rank))
      else
        Except.error (BCError.BCDataError
          ("Unsupported boundary format. " ++ Boundaries.get_help)) := by
  have e1 : Boundaries.from_data grid (BCSpec.seq l) rank =
      finishDispatch (dispatch grid (BCSpec.seq l) rank) := rfl
  rw [e1]
  by_cases h1 : l.length = grid.num_axes
  · rw [if_pos h1]
    have e2 : dispatch grid (BCSpec.seq l) rank =
        some (mkEachFrom grid rank 0 l) := by
      simp only [dispatch]
      rw [if_pos h1]
    rw [e2]
  · rw [if_neg h1]
    by_cases h2 : grid.num_axes = 1 ∧ l.length = 2
    · rw [if_pos h2]
      obtain ⟨a, b2, rfl⟩ : ∃ a b2, l = [a, b2] := by
        match l with
        | [] => exact absurd h2.2 (by simp)
        | [x] => exact absurd h2.2 (by simp)
        | x :: y :: tl =>
          have htl : tl.length = 0 := by
            have hl2 := h2.2
            simp only [List.length_cons] at hl2
            omega
          have htl2 : tl = [] := List.eq_nil_of_length_eq_zero htl
          exact ⟨x, y, by rw [htl2]⟩
      have e2 : dispatch grid (BCSpec.seq [a, b2]) rank =
          some (mkShort grid a b2 rank) := by
        simp only [dispatch]
        rw [if_neg h1, if_pos h2]
      rw [e2]
      rfl
    · rw [if_neg h2]
      have e2 : dispatch grid (BCSpec.seq l) rank = none := by
        simp only [dispatch]
        rw [if_neg h1, if_neg h2]
      rw [e2]
      rfl

/-- C5: `from_data` expands the sentinel keywords into one keyword per axis:
"periodic" on each periodic axis, and the keyword's non-periodic kind
(neumann, dirichlet or curvature respectively) on each non-periodic axis; the
rank argument never changes which kind is chosen (the expansion below does
not mention it), and processing the sentinel equals processing the expanded
per-axis list. -/
theorem c5_sentinel_expansion (grid : Grid) (rank : Nat) :
    expandSentinels grid (BCSpec.str "natural") rank =
      BCSpec.seq (grid.periodic.map fun p =>
        AxData.str (if p then "periodic" else "neumann")) ∧
    expandSentinels grid (BCSpec.str "auto_periodic_neumann") rank =
      BCSpec.seq (grid.periodic.map fun p =>
        AxData.str (if p then "periodic" else "neumann")) ∧
    expandSentinels grid (BCSpec.str "auto_periodic_dirichlet") rank =
      BCSpec.seq (grid.periodic.map fun p =>
        AxData.str (if p then "periodic" else "dirichlet")) ∧
    expandSentinels grid (BCSpec.str "auto_periodic_curvature") rank =
      BCSpec.seq (grid.periodic.map fun p =>
        AxData.str (if p then "periodic" else "curvature")) ∧
    Boundaries.from_data grid (BCSpec.str "natural") rank =
      Boundaries.from_data grid (BCSpec.seq (grid.periodic.map fun p =>
        AxData.str (if p then "periodic" else "neumann"))) rank := by
  have e1n : expandSentinels grid (BCSpec.str "natural") rank =
      BCSpec.seq (grid.periodic.map fun periodic : Bool =>
        if periodic then AxData.str "periodic"
        else if rank = 0 then AxData.str "neumann" else AxData.str "neumann") := rfl
  have e2n : expandSentinels grid (BCSpec.str "auto_periodic_neumann") rank =
      BCSpec.seq (grid.periodic.map fun periodic : Bool =>
        if periodic then AxData.str "periodic"
        else if rank = 0 then AxData.str "neumann" else AxData.str "neumann") := rfl
  have e3n : expandSentinels grid (BCSpec.str "auto_periodic_dirichlet") rank =
      BCSpec.seq (grid.periodic.map fun periodic : Bool =>
        if periodic then AxData.str "periodic"
        else if rank = 0 then AxData.str "dirichlet" else AxData.str "dirichlet") := rfl
  have e4n : expandSentinels grid (BCSpec.str "auto_periodic_curvature") rank =
      BCSpec.seq (grid.periodic.map fun periodic : Bool =>
        if periodic then AxData.str "periodic"
        else if rank = 0 then AxData.str "curvature" else AxData.str "curvature") := rfl
  have h1 : expandSentinels grid (BCSpec.str "natural") rank =
      BCSpec.seq (grid.periodic.map fun p =>
        AxData.str (if p then "periodic" else "neumann")) := by
    rw [e1n, sentinel_map_eq]
  have h2 : expandSentinels grid (BCSpec.str "auto_periodic_neumann") rank =
      BCSpec.seq (grid.periodic.map fun p =>
        AxData.str (if p then "periodic" else "neumann")) := by
    rw [e2n, sentinel_map_eq]
  have h3 : expandSentinels grid (BCSpec.str "auto_periodic_dirichlet") rank =
      BCSpec.seq (grid.periodic.map fun p =>
        AxData.str (if p then "periodic" else "dirichlet")) := by
    rw [e3n, sentinel_map_eq]
  have h4 : expandSentinels grid (BCSpec.str "auto_periodic_curvature") rank =
      BCSpec.seq (grid.periodic.map fun p =>
        AxData.str (if p then "periodic" else "curvature")) := by
    rw [e4n, sentinel_map_eq]
  refine ⟨h1, h2, h3, h4, ?_⟩
  have e1 : Boundaries.from_data grid (BCSpec.str "natural") rank =
      finishDispatch (dispatch grid
        (expandSentinels grid (BCSpec.str "natural") rank) rank) := rfl
  have e2 : Boundaries.from_data grid (BCSpec.seq (grid.periodic.map fun p =>
        AxData.str (if p then "periodic" else "neumann"))) rank =
      finishDispatch (dispatch grid (BCSpec.seq (grid.periodic.map fun p =>
        AxData.str (if p then "periodic" else "neumann"))) rank) := rfl
  rw [e1, e2, h1]

/-- C3: for every collection, every assignment of per-axis setters and every
full array, the single composed routine built by `make_ghost_cell_setter` is
defined and has the same effect as `set_ghost_cells`, which invokes each axis
pair's setter exactly once in axis order 0, 1, ... (a left fold over the
pairs). -/
theorem c3_composed_setter_eq (b : Boundaries) (ps : PairSetter) (d : FullData)
    (hne : b.pairs ≠ []) :
    (b.make_ghost_cell_setter ps).isSome = true ∧
      ((b.make_ghost_cell_setter ps).getD id) d = b.set_ghost_cells ps d := by
  match hbp : b.pairs with
  | [] => exact absurd hbp hne
  | p :: rest =>
    have h := chain_apply (ps p) (rest.map ps) none d
    unfold Boundaries.make_ghost_cell_setter Boundaries.set_ghost_cells
    rw [hbp, List.map_cons]
    refine ⟨h.1, ?_⟩
    rw [h.2]
    show List.foldl (fun acc g => g acc) d (List.map ps (p :: rest)) =
      List.foldl (fun acc q => ps q acc) d (p :: rest)
    exact List.foldl_map ps (fun acc g => g acc) (p :: rest) d

theorem c3_composed_setter_eq_witness :
    (bW.make_ghost_cell_setter psW).isSome = true ∧
      ((bW.make_ghost_cell_setter psW).getD id) dW = bW.set_ghost_cells psW dW :=
  c3_composed_setter_eq bW psW dW (by decide)

/-- C6: the fast path of `from_data` — an input that is already a collection
whose grid equals the target grid and that passes the rank check is returned
as-is (the very same value, with no re-normalisation). -/
theorem c6_from_data_identity (g : Grid) (b : Boundaries) (rank : Nat)
    (hg : b.grid = g) (hr : b.check_value_rank rank = Except.ok ()) :
    Boundaries.from_data g (BCSpec.bcs b) rank = Except.ok b := by
  show (if b.grid = g then
      match b.check_value_rank rank with
      | Except.error e => Except.error e
      | Except.ok _ => Except.ok b
    else Except.error BCError.AssertionError) = Except.ok b
  rw [if_pos hg, hr]

theorem c6_from_data_identity_witness :
    Boundaries.from_data gW (BCSpec.bcs bW) 0 = Except.ok bW :=
  c6_from_data_identity gW bW 0 (by decide) (by decide)

/-- C7: the grid consistency checks compare grids as identity-comparable
references (model: structural equality including the identity tag): the
constructor succeeds only when every pair's grid is the collection's grid,
and the `from_data` fast path succeeds only when the existing collection's
grid is the target grid. -/
theorem c7_grid_identity_check (bs : List BoundaryPair) (b b2 b3 : Boundaries)
    (g : Grid) (rank : Nat) :
    (Boundaries.init bs = Except.ok b → allSameGrid b.grid bs = true) ∧
    (Boundaries.from_data g (BCSpec.bcs b2) rank = Except.ok b3 → b2.grid = g) := by
  constructor
  · intro h
    exact (init_ok_elim h).2.2.2.1
  · intro h
    by_cases hg : b2.grid = g
    · exact hg
    · exfalso
      have h2 : (if b2.grid = g then
          match b2.check_value_rank rank with
          | Except.error e => Except.error e
          | Except.ok _ => Except.ok b2
        else Except.error BCError.AssertionError) = Except.ok b3 := h
      rw [if_neg hg] at h2
      exact absurd h2 (by simp)

theorem c7_grid_identity_check_witness :
    allSameGrid bW.grid [p0W, p1W] = true ∧ bW.grid = gW :=
  ⟨(c7_grid_identity_check [p0W, p1W] bW bW bW gW 0).1 (by decide),
   (c7_grid_identity_check [p0W, p1W] bW bW bW gW 0).2 (by decide)⟩

/-- C8: for every collection built by the constructor, `copy` (deep-copying
every axis pair with fresh identities) succeeds, yielding a collection that
is structurally equal to the original but not the same object, passes all
construction invariants, shares the same grid reference, and whose `periodic`
property is read directly from the grid before and after copying. -/
theorem c8_copy_properties (b : Boundaries) (fresh : Nat)
    (hv : Boundaries.init b.pairs = Except.ok b)
    (hf : ∀ p ∈ b.pairs, p.ref < fresh) :
    b.copy fresh = Except.ok (b.copyVal fresh) ∧
      Boundaries.beq (b.copyVal fresh) b = true ∧
      b.copyVal fresh ≠ b ∧
      (b.copyVal fresh).grid = b.grid ∧
      (b.copyVal fresh).periodic = b.grid.periodic ∧
      b.periodic = b.grid.periodic := by
  obtain ⟨hne, -, hlen, hg, ha, hp⟩ := init_ok_elim hv
  have hcc : checkConsistency b.grid 0 b.pairs = none :=
    (checkConsistency_eq_none_iff b.grid 0 b.pairs).mpr ⟨hg, ha, hp⟩
  have hcc2 : checkConsistency b.grid 0 (copyPairs fresh b.pairs) = none := by
    rw [copyPairs_checkConsistency]; exact hcc
  have hfacts := (checkConsistency_eq_none_iff b.grid 0 (copyPairs fresh b.pairs)).mp hcc2
  have hne2 : copyPairs fresh b.pairs ≠ [] := by
    intro hc
    have := copyPairs_length fresh b.pairs
    rw [hc] at this
    exact hne (List.eq_nil_of_length_eq_zero this.symm)
  have hlen2 : (copyPairs fresh b.pairs).length = b.grid.num_axes := by
    rw [copyPairs_length]; exact hlen
  refine ⟨?_, ?_, ?_, rfl, rfl, rfl⟩
  · exact init_ok_intro b.grid (copyPairs fresh b.pairs) hne2 hlen2
      hfacts.1 hfacts.2.1 hfacts.2.2
  · show Boundaries.beq ⟨b.grid, copyPairs fresh b.pairs⟩ b = true
    have hz := copyPairs_beq fresh b.pairs
    simp only [Boundaries.beq, copyPairs_length]
    simp [hz]
  · intro heq
    match hbp : b.pairs with
    | [] => exact hne hbp
    | p0 :: rest =>
      have hpe : (b.copyVal fresh).pairs = b.pairs := by rw [heq]
      have hcp : (b.copyVal fresh).pairs = copyPairs fresh b.pairs := rfl
      rw [hcp, hbp] at hpe
      have hhead : p0.copy fresh = p0 := by
        have h2 : p0.copy fresh :: copyPairs (fresh + 1) rest = p0 :: rest := hpe
        injection h2
      have hr1 : (p0.copy fresh).ref = fresh := rfl
      have hr2 : p0.ref < fresh := hf p0 (by rw [hbp]; exact List.mem_cons_self p0 rest)
      rw [hhead] at hr1
      rw [hr1] at hr2
      exact lt_irrefl _ hr2

theorem c8_copy_properties_witness :
    bW.copy 100 = Except.ok (bW.copyVal 100) ∧
      Boundaries.beq (bW.copyVal 100) bW = true ∧
      bW.copyVal 100 ≠ bW ∧
      (bW.copyVal 100).grid = bW.grid ∧
      (bW.copyVal 100).periodic = bW.grid.periodic ∧
      bW.periodic = bW.grid.periodic :=
  c8_copy_properties bW 100 (by decide) (by decide)

end PDE
